import Mathlib

/-!
Verification development for the asynchronous job-orchestration core of the
crewai-financial-analysis backend.

The embedding models, directly from the Python sources:
  * the DynamoDB job store as an association list of items, where an item is
    an association list of attribute values (`put_item`, `get_item`, and
    `update_item` with `SET` update expressions and
    `ExpressionAttributeNames` alias resolution);
  * `start_job` and `check_status` from `.aws-sam/build/CrewApiFunction/app.py`;
  * the pipeline processor `lambda_handler` from `src/processor/processor.py`
    and its variant in `.aws-sam/build/CrewProcessorFunction/processor.py`;
  * `MovingQuestionClassifier.classify_question` from
    `src/planner/handler-v3.py`;
  * the step-routing `lambda_handler` from `src/processor/planner/handler.py`.

External effects (the Lambda invoke call, the CrewAI/Bedrock reasoning calls,
JSON decoding of reasoning output, and clock reads) are passed in as explicit
outcome parameters, so every handler is a pure function of its event, its
environment, and the store.
-/

namespace CrewPipeline

/-- Attribute values stored in DynamoDB items and JSON response bodies.
Maps are flattened to string-valued objects, which covers every map this
code base stores (the `result` map `{'answer': ...}` and caller contexts,
which the code never inspects). -/
inductive AttrVal where
  | s (v : String)
  | n (v : Nat)
  | m (v : List (String × String))
  deriving DecidableEq

/-- Generic association-list lookup (first binding wins), used for items,
stores, expression-name maps and expression-value maps. -/
def assocFind {α : Type} : List (String × α) → String → Option α
  | [], _ => none
  | (k', v') :: rest, k => if k = k' then some v' else assocFind rest k

/-- Generic association-list write: replaces the first binding of the key,
or appends a new binding, preserving insertion order (Python dict / DynamoDB
attribute semantics). -/
def assocSet {α : Type} : List (String × α) → String → α → List (String × α)
  | [], k, v => [(k, v)]
  | (k', v') :: rest, k, v =>
      if k = k' then (k, v) :: rest else (k', v') :: assocSet rest k v

/-- A DynamoDB item: attribute name to value. -/
abbrev Item := List (String × AttrVal)

/-- The jobs table: job_id key to item. -/
abbrev Store := List (String × Item)

/-- Read one attribute of an item. -/
def getAttr (it : Item) (k : String) : Option AttrVal := assocFind it k

/-- Apply an ordered list of `SET` assignments to an item. -/
def setAttrs (it : Item) (sets : List (String × AttrVal)) : Item :=
  sets.foldl (fun acc p => assocSet acc p.1 p.2) it

/-- Model of `table.put_item(Item=...)`: store the full item under its key,
replacing any previous item. -/
def put_item (s : Store) (k : String) (it : Item) : Store := assocSet s k it

/-- Model of `table.get_item(Key=...)`: fetch the item stored under a key. -/
def get_item (s : Store) (k : String) : Option Item := assocFind s k

/-- Model of `table.update_item(Key=..., UpdateExpression="SET ...")` with the
resolved assignments: DynamoDB upsert semantics, starting from the stored
item, or from a fresh item holding only the key attribute when absent.
None of the calls in this code base carries a `ConditionExpression`, so the
update applies regardless of the stored contents. -/
def update_item (s : Store) (k : String) (sets : List (String × AttrVal)) : Store :=
  put_item s k (setAttrs ((get_item s k).getD [("job_id", AttrVal.s k)]) sets)

/-- The status/field of the item stored under a job id. -/
def storedField (s : Store) (jid k : String) : Option AttrVal :=
  (get_item s jid).bind (fun it => getAttr it k)

/-! ### Update calls as issued by the processors

For the variant-comparison claim the two processors' `update_item` calls are
kept at the wire level: the `SET` assignment list (left-hand token, value
placeholder), the `ExpressionAttributeNames` map and the
`ExpressionAttributeValues` map, exactly as written in each source file,
together with the store-side validation that decides whether such a call is
accepted or rejected with a `ValidationException`. -/

/-- One `update_item` call: key, `SET` assignments in source order
(left-hand token, value placeholder), `ExpressionAttributeNames`,
`ExpressionAttributeValues`. -/
structure UpdateCall where
  key : String
  assigns : List (String × String)
  names : List (String × String)
  values : List (String × AttrVal)
  deriving DecidableEq

/-- Resolve one left-hand token of a `SET` clause: an alias bound in
`ExpressionAttributeNames` (the `#name` tokens) is replaced by the attribute
name it stands for; an unbound token is the attribute name itself. -/
def resolveName (names : List (String × String)) (tok : String) : String :=
  (assocFind names tok).getD tok

/-- The assignments a call denotes after resolving attribute-name aliases
and value placeholders. -/
def UpdateCall.resolvedSets (c : UpdateCall) : List (String × Option AttrVal) :=
  c.assigns.map (fun p => (resolveName c.names p.1, assocFind c.values p.2))

/-- The effective attribute writes of a call (assignments whose value
placeholder is bound). -/
def UpdateCall.effectiveSets (c : UpdateCall) : List (String × AttrVal) :=
  c.resolvedSets.filterMap
    (fun p => match p.2 with
      | some v => some (p.1, v)
      | none => none)

/-- Execute an update call against the store. -/
def applyUpdateCall (s : Store) (c : UpdateCall) : Store :=
  update_item s c.key c.effectiveSets

/-- The fragment of DynamoDB's published reserved-word list covering the
attribute names this code base touches in update expressions (the full
list has several hundred entries; the comparison is case-insensitive and
these sources only use lowercase attribute names). STATUS, RESULT, ERROR,
TTL and TIMESTAMP are all reserved, which is why the handlers alias
`#status` everywhere and why `src/processor/processor.py` comments that it
uses expression attribute names for `result` and `error`. -/
def reservedWords : List String :=
  ["status", "result", "error", "ttl", "timestamp"]

/-- Whether a `SET` left-hand token is an `ExpressionAttributeNames` alias
(tokens beginning with `#`). -/
def isAliasToken (tok : String) : Bool :=
  match tok.data with
  | [] => false
  | c :: _ => c == '#'

/-- DynamoDB expression validation for one `SET` left-hand token: an alias
token must be bound in `ExpressionAttributeNames`; a plain token names the
attribute directly and is rejected with a `ValidationException` when it is
a reserved word. -/
def validToken (names : List (String × String)) (tok : String) : Bool :=
  if isAliasToken tok then (assocFind names tok).isSome
  else !(reservedWords.contains tok)

/-- Whether the store accepts a call's update expression: every `SET`
left-hand token must validate. A rejected call raises and writes nothing. -/
def UpdateCall.valid (c : UpdateCall) : Bool :=
  c.assigns.all (fun p => validToken c.names p.1)

/-! ### The pipeline processor (`src/processor/processor.py`) -/

/-- The event the dispatcher sends to the processor. -/
structure ProcEvent where
  job_id : String
  question : String
  deriving DecidableEq

/-- Environmental outcome of the processor's `try` body: `success` when
nothing raises for environmental reasons; `failure e` when something in the
body raises `e` before the completed write lands (e.g. the store being
unreachable), so only the except-branch write is attempted. Rejection of an
update expression by the store's validation is not part of this outcome:
the handler semantics determines it from the call itself. -/
inductive ProcOutcome where
  | success
  | failure (e : String)
  deriving DecidableEq

/-- Environment of one processor run: outcome of the `try` body and the
`datetime.now().isoformat()` reading. -/
structure ProcEnv where
  outcome : ProcOutcome
  now_iso : String

/-- The single `update_item` call issued by `lambda_handler` in
`src/processor/processor.py`: on success
`SET #status = :status, #result = :result, updated_at = :updated_at` with
names `{#status: status, #result: result}`; on exception
`SET #status = :status, #err = :error` with names
`{#status: status, #err: error}`. -/
def processorUpdateCall (ev : ProcEvent) (env : ProcEnv) : UpdateCall :=
  match env.outcome with
  | .success =>
      ⟨ev.job_id,
       [("#status", ":status"), ("#result", ":result"), ("updated_at", ":updated_at")],
       [("#status", "status"), ("#result", "result")],
       [(":status", AttrVal.s "completed"),
        (":result", AttrVal.m [("answer", "Processed: " ++ ev.question)]),
        (":updated_at", AttrVal.s env.now_iso)]⟩
  | .failure e =>
      ⟨ev.job_id,
       [("#status", ":status"), ("#err", ":error")],
       [("#status", "status"), ("#err", "error")],
       [(":status", AttrVal.s "failed"), (":error", AttrVal.s e)]⟩

/-- The single `update_item` call issued by `lambda_handler` in
`.aws-sam/build/CrewProcessorFunction/processor.py`: on success
`SET #status = :status, result = :result, updated_at = :updated_at` with
names `{#status: status}`; on exception `SET #status = :status, error = :error`
with names `{#status: status}`. -/
def processorBuildUpdateCall (ev : ProcEvent) (env : ProcEnv) : UpdateCall :=
  match env.outcome with
  | .success =>
      ⟨ev.job_id,
       [("#status", ":status"), ("result", ":result"), ("updated_at", ":updated_at")],
       [("#status", "status")],
       [(":status", AttrVal.s "completed"),
        (":result", AttrVal.m [("answer", "Processed: " ++ ev.question)]),
        (":updated_at", AttrVal.s env.now_iso)]⟩
  | .failure e =>
      ⟨ev.job_id,
       [("#status", ":status"), ("error", ":error")],
       [("#status", "status")],
       [(":status", AttrVal.s "failed"), (":error", AttrVal.s e)]⟩

/-- Translation of `lambda_handler` in `src/processor/processor.py`, run
against a validating store. On `success` the `try` body issues the
completed-update: if the store rejects its expression, the raised
`ValidationException` is caught like any other exception and the `except`
branch issues the failed-update (re-raising the caught exception on
success, or propagating the new exception when that write is rejected
too). On `failure e` the `try` body raised `e` before the completed write,
so only the except-branch write happens and `e` is re-raised. -/
def processor_lambda_handler (ev : ProcEvent) (env : ProcEnv) (s : Store) :
    Store × Except String Nat :=
  match env with
  | ⟨.success, now⟩ =>
      let c := processorUpdateCall ev ⟨ProcOutcome.success, now⟩
      if c.valid then (applyUpdateCall s c, .ok 200)
      else
        let cf := processorUpdateCall ev ⟨ProcOutcome.failure "ValidationException", now⟩
        if cf.valid then (applyUpdateCall s cf, .error "ValidationException")
        else (s, .error "ValidationException")
  | ⟨.failure e, now⟩ =>
      let cf := processorUpdateCall ev ⟨ProcOutcome.failure e, now⟩
      if cf.valid then (applyUpdateCall s cf, .error e)
      else (s, .error "ValidationException")

/-- Translation of `lambda_handler` in `.aws-sam/build/CrewProcessorFunction/processor.py`,
run against the same validating store semantics: identical control flow,
but its update calls name `result` and `error` directly instead of through
`ExpressionAttributeNames` aliases, so the store's expression validation
decides their fate differently. -/
def processor_build_lambda_handler (ev : ProcEvent) (env : ProcEnv) (s : Store) :
    Store × Except String Nat :=
  match env with
  | ⟨.success, now⟩ =>
      let c := processorBuildUpdateCall ev ⟨ProcOutcome.success, now⟩
      if c.valid then (applyUpdateCall s c, .ok 200)
      else
        let cf := processorBuildUpdateCall ev ⟨ProcOutcome.failure "ValidationException", now⟩
        if cf.valid then (applyUpdateCall s cf, .error "ValidationException")
        else (s, .error "ValidationException")
  | ⟨.failure e, now⟩ =>
      let cf := processorBuildUpdateCall ev ⟨ProcOutcome.failure e, now⟩
      if cf.valid then (applyUpdateCall s cf, .error e)
      else (s, .error "ValidationException")

/-- The terminal status a processor run writes for its outcome. -/
def terminalStatusOf : ProcOutcome → String
  | .success => "completed"
  | .failure _ => "failed"

/-! ### The HTTP dispatcher and status reader
(`.aws-sam/build/CrewApiFunction/app.py`) -/

/-- Parsed body of `POST /query`: `body.get('question', '')` and
`body.get('context', {})`. -/
structure QueryBody where
  question : Option String
  context : Option AttrVal
  deriving DecidableEq

/-- An HTTP response as built by `cors_response`: status code and JSON body
(the CORS headers are fixed and carried implicitly). -/
structure Response where
  statusCode : Nat
  body : List (String × AttrVal)
  deriving DecidableEq

/-- Translation of `cors_response(status_code, body)`. -/
def cors_response (code : Nat) (b : List (String × AttrVal)) : Response := ⟨code, b⟩

/-- Outcome of `lambda_client.invoke(..., InvocationType='Event')`:
accepted, or rejected with an exception message. -/
inductive InvokeOutcome where
  | ok
  | error (e : String)
  deriving DecidableEq

/-- Environment of one `start_job` call: the generated `uuid.uuid4()` job id,
the `datetime.now().isoformat()` reading, the computed TTL timestamp, and the
outcome of the asynchronous invoke. -/
structure StartEnv where
  job_id : String
  now_iso : String
  ttl : Nat
  invoke : InvokeOutcome

/-- Translation of `start_job(event, jobs_table)` from app.py: reject an empty/missing
question with 400; otherwise put the fresh `processing` item, fire the
asynchronous processor invoke, on invoke failure update the job to `failed`
with the exception text, and in every non-400 case return 202 with a
`processing` body and the `check_status_url`. Its failed-update writes both
attributes through bound aliases (`#status`, `#error`), so the expression
passes the store's validation and is modelled directly at the resolved
level. -/
def start_job (b : QueryBody) (env : StartEnv) (s : Store) : Store × Response :=
  let question := b.question.getD ""
  let context_data := b.context.getD (AttrVal.m [])
  if question = "" then
    (s, cors_response 400 [("error", AttrVal.s "Question is required")])
  else
    let s1 := put_item s env.job_id
      [("job_id", AttrVal.s env.job_id),
       ("status", AttrVal.s "processing"),
       ("question", AttrVal.s question),
       ("context", context_data),
       ("created_at", AttrVal.s env.now_iso),
       ("ttl", AttrVal.n env.ttl)]
    let s2 :=
      match env.invoke with
      | .ok => s1
      | .error e =>
          update_item s1 env.job_id
            [("status", AttrVal.s "failed"), ("error", AttrVal.s e)]
    (s2, cors_response 202
      [("job_id", AttrVal.s env.job_id),
       ("status", AttrVal.s "processing"),
       ("message", AttrVal.s "Your request is being processed"),
       ("check_status_url", AttrVal.s ("/status/" ++ env.job_id))])

/-- The always-present part of the `check_status` response body:
`job_id`, `status`, `created_at` (default `''`), `question` (default `''`). -/
def statusBaseBody (jid : String) (job : Item) (st : AttrVal) : List (String × AttrVal) :=
  [("job_id", AttrVal.s jid),
   ("status", st),
   ("created_at", (getAttr job "created_at").getD (AttrVal.s "")),
   ("question", (getAttr job "question").getD (AttrVal.s ""))]

/-- The `check_status` response body: the base fields, plus `result`
(default `{}`) exactly when the stored status is `completed`, plus `error`
(default `'Unknown error'`) exactly when it is `failed`. -/
def statusBody (jid : String) (job : Item) (st : AttrVal) : List (String × AttrVal) :=
  if st = AttrVal.s "completed" then
    statusBaseBody jid job st ++ [("result", (getAttr job "result").getD (AttrVal.m []))]
  else if st = AttrVal.s "failed" then
    statusBaseBody jid job st ++ [("error", (getAttr job "error").getD (AttrVal.s "Unknown error"))]
  else
    statusBaseBody jid job st

/-- The view built from a found item. A stored item without a `status`
attribute makes `job['status']` raise a `KeyError`, which the source's
except-branch converts into `cors_response(500, {'error': str(e)})`; the
case is unreachable for records this system writes (every write sets
`status`), and the quoting Python applies inside `str(KeyError(...))` is
elided from the message. -/
def statusResponse (jid : String) (job : Item) : Option Response :=
  match getAttr job "status" with
  | none => some (cors_response 500 [("error", AttrVal.s "KeyError: status")])
  | some st => some (cors_response 200 (statusBody jid job st))

/-- Translation of `check_status(job_id, jobs_table)` from app.py: 404 when the item is
absent; otherwise the projected 200 view. The store is returned untouched:
the function only calls `get_item`. -/
def check_status (jid : String) (s : Store) : Store × Option Response :=
  match get_item s jid with
  | none =>
      (s, some (cors_response 404
        [("error", AttrVal.s "Job not found"), ("job_id", AttrVal.s jid)]))
  | some job => (s, statusResponse jid job)

/-- Status code of an optional response. -/
def respCode : Option Response → Option Nat
  | none => none
  | some r => some r.statusCode

/-- A body field of an optional response. -/
def respField : Option Response → String → Option AttrVal
  | none, _ => none
  | some r, k => assocFind r.body k

/-- A body field of a response. -/
def bodyField (r : Response) (k : String) : Option AttrVal := assocFind r.body k

/-! ### The question classifier (`src/planner/handler-v3.py`) -/

/-- One classified fragment `{question, category}`. -/
structure Fragment where
  question : String
  category : String
  deriving DecidableEq

/-- Outcome of `json.loads` on the (fence-stripped) crew output text:
either a parsed object, carrying its `questions` field when present, or a
`JSONDecodeError`. -/
inductive ParseOutcome where
  | ok (questions : Option (List Fragment))
  | jsonError (msg : String)
  deriving DecidableEq

/-- Outcome of `crew.kickoff()` followed by response-text extraction:
the call either returns text (summarised by how it parses) or raises. -/
inductive CrewOutcome where
  | returns (parsed : ParseOutcome)
  | raises (e : String)
  deriving DecidableEq

/-- Return value of `MovingQuestionClassifier.classify_question`. -/
structure ClassifyResult where
  success : Bool
  questions : List Fragment
  error : Option String
  deriving DecidableEq

/-- Translation of `MovingQuestionClassifier.classify_question(question)` from
handler-v3.py: on a parsed response, `success=True` with
`classification_result.get('questions', [])`; on `JSONDecodeError` or any
raised exception, the deterministic fallback of the whole question
classified `factual_direct` with `success=False`. -/
def classify_question (question : String) (out : CrewOutcome) : ClassifyResult :=
  match out with
  | .returns (.ok qs) => ⟨true, qs.getD [], none⟩
  | .returns (.jsonError e) =>
      ⟨false, [⟨question, "factual_direct"⟩], some ("JSON parsing failed: " ++ e)⟩
  | .raises e =>
      ⟨false, [⟨question, "factual_direct"⟩], some ("Classification failed: " ++ e)⟩

/-! ### Step routing (`src/processor/planner/handler.py`) -/

/-- The event handed to the processor-side planner handler. -/
structure PlannerEvent where
  question : String
  context : AttrVal
  step : Option String

/-- Outcome of the crew task execution performed inside a sub-handler. -/
inductive CrewRun where
  | ok (text : String)
  | raises (e : String)

/-- What a sub-handler returns: its status code, the `step` tag it stamps
into the body, the `success` flag, and the error text if any. -/
structure StepResponse where
  statusCode : Nat
  step : String
  success : Bool
  error : Option String
  deriving DecidableEq

/-- Translation of `create_step_function_error(step, error_message, event)`. -/
def create_step_function_error (step e : String) : StepResponse :=
  ⟨500, step, false, some e⟩

/-- Translation of `task_planner_handler`: body carries `'step': 'task_planning'`. -/
def task_planner_handler (run : CrewRun) : StepResponse :=
  match run with
  | .ok _ => ⟨200, "task_planning", true, none⟩
  | .raises e => create_step_function_error "task_planning" e

/-- Translation of `metadata_handler`: body carries `'step': 'metadata_retrieval'`. -/
def metadata_handler (run : CrewRun) : StepResponse :=
  match run with
  | .ok _ => ⟨200, "metadata_retrieval", true, none⟩
  | .raises e => create_step_function_error "metadata_retrieval" e

/-- Translation of `query_execution_handler`: body carries `'step': 'query_execution'`. -/
def query_execution_handler (run : CrewRun) : StepResponse :=
  match run with
  | .ok _ => ⟨200, "query_execution", true, none⟩
  | .raises e => create_step_function_error "query_execution" e

/-- Translation of `reporting_handler`: formats the report locally (no crew call);
body carries `'step': 'reporting'`. -/
def reporting_handler : StepResponse :=
  ⟨200, "reporting", true, none⟩

/-- Translation of `financial_analysis_handler`: runs the full crew in one step;
body carries `'step': 'complete_analysis'`. -/
def financial_analysis_handler (run : CrewRun) : StepResponse :=
  match run with
  | .ok _ => ⟨200, "complete_analysis", true, none⟩
  | .raises e => create_step_function_error "complete_analysis" e

/-- Translation of `lambda_handler` in `src/processor/planner/handler.py`: the if/elif
chain on `event.get('step')`, defaulting to `financial_analysis_handler`
for a missing or unrecognised step. -/
def planner_main_handler (ev : PlannerEvent) (run : CrewRun) : StepResponse :=
  if ev.step = some "task_planning" then task_planner_handler run
  else if ev.step = some "metadata_retrieval" then metadata_handler run
  else if ev.step = some "query_execution" then query_execution_handler run
  else if ev.step = some "reporting" then reporting_handler
  else if ev.step = some "complete_analysis" then financial_analysis_handler run
  else financial_analysis_handler run

/-- The routing table the source's if/elif chain implements: explicit step
name to the stage that runs, with `complete_analysis` as the default. -/
def stepTable : List (String × String) :=
  [("task_planning", "task_planning"),
   ("metadata_retrieval", "metadata_retrieval"),
   ("query_execution", "query_execution"),
   ("reporting", "reporting"),
   ("complete_analysis", "complete_analysis")]

/-- Table-lookup view of stage selection: keyed on the event's explicit
`step` field only. -/
def selectedStep (step : Option String) : String :=
  match step with
  | none => "complete_analysis"
  | some name => (assocFind stepTable name).getD "complete_analysis"

/-! ### The result/error invariant and concrete scenarios -/

/-- The spec's job-record invariant as a decidable check: a `completed`
record has `result` and no `error`; a `failed` record has `error` and no
`result`; a `processing` record has neither. -/
def invariantOk (it : Item) : Bool :=
  if getAttr it "status" = some (AttrVal.s "completed") then
    (getAttr it "result").isSome && (getAttr it "error").isNone
  else if getAttr it "status" = some (AttrVal.s "failed") then
    (getAttr it "error").isSome && (getAttr it "result").isNone
  else if getAttr it "status" = some (AttrVal.s "processing") then
    (getAttr it "result").isNone && (getAttr it "error").isNone
  else
    true

/-- A freshly admitted job record, as `start_job` writes it. -/
def raceItem0 : Item :=
  [("job_id", AttrVal.s "job-c1"),
   ("status", AttrVal.s "processing"),
   ("question", AttrVal.s "What are your storage rates?"),
   ("context", AttrVal.m []),
   ("created_at", AttrVal.s "2025-01-01T00:00:00"),
   ("ttl", AttrVal.n 1735776000)]

/-- Store holding just the freshly admitted job. -/
def raceStore0 : Store := put_item [] "job-c1" raceItem0

/-- Store after a first processor run completes the job. -/
def raceStoreCompleted : Store :=
  (processor_lambda_handler ⟨"job-c1", "What are your storage rates?"⟩
    ⟨ProcOutcome.success, "2025-01-01T00:05:00"⟩ raceStore0).1

/-- Store after a second, racing processor run raises and writes its
`failed` update over the already-completed job. -/
def raceStoreOverwritten : Store :=
  (processor_lambda_handler ⟨"job-c1", "What are your storage rates?"⟩
    ⟨ProcOutcome.failure "Bedrock timeout", "2025-01-01T00:06:00"⟩ raceStoreCompleted).1

/-- A valid submission body. -/
def c5Body : QueryBody := ⟨some "What are your storage rates?", none⟩

/-- A dispatch environment whose asynchronous invoke is rejected. -/
def c5FailEnv : StartEnv :=
  ⟨"job-c5", "2025-01-01T00:00:00", 1735776000, InvokeOutcome.error "invoke rejected"⟩

end CrewPipeline

namespace CrewPipeline

/-! ## Association-list lemmas -/

theorem assocFind_assocSet_self {α : Type} (l : List (String × α)) (k : String) (v : α) :
    assocFind (assocSet l k v) k = some v := by
  induction l with
  | nil => simp [assocSet, assocFind]
  | cons hd tl ih =>
      obtain ⟨k', v'⟩ := hd
      by_cases h : k = k'
      · simp [assocSet, assocFind, h]
      · simp [assocSet, assocFind, h, ih]

theorem assocFind_assocSet_ne {α : Type} (l : List (String × α)) (k k2 : String) (v : α)
    (h : k2 ≠ k) : assocFind (assocSet l k v) k2 = assocFind l k2 := by
  induction l with
  | nil => simp [assocSet, assocFind, h]
  | cons hd tl ih =>
      obtain ⟨k', v'⟩ := hd
      by_cases hk : k = k'
      · subst hk
        simp [assocSet, assocFind, h]
      · simp [assocSet, assocFind, hk, ih]

theorem get_item_put_item_self (s : Store) (k : String) (it : Item) :
    get_item (put_item s k it) k = some it :=
  assocFind_assocSet_self s k it

theorem getAttr_assocSet_self (it : Item) (k : String) (v : AttrVal) :
    getAttr (assocSet it k v) k = some v :=
  assocFind_assocSet_self it k v

theorem getAttr_assocSet_ne (it : Item) (k k2 : String) (v : AttrVal) (h : k2 ≠ k) :
    getAttr (assocSet it k v) k2 = getAttr it k2 :=
  assocFind_assocSet_ne it k k2 v h

theorem storedField_put_item_self (s : Store) (k f : String) (it : Item) :
    storedField (put_item s k it) k f = getAttr it f := by
  simp [storedField, get_item, put_item, assocFind_assocSet_self]

theorem invariantOk_completed (it : Item)
    (hst : getAttr it "status" = some (AttrVal.s "completed"))
    (hres : (getAttr it "result").isSome = true)
    (herr : getAttr it "error" = none) : invariantOk it = true := by
  simp [invariantOk, hst, hres, herr]

theorem invariantOk_failed (it : Item)
    (hst : getAttr it "status" = some (AttrVal.s "failed"))
    (herr : (getAttr it "error").isSome = true)
    (hres : getAttr it "result" = none) : invariantOk it = true := by
  simp [invariantOk, hst, herr, hres]

/-! ## C1 -/

/-- C1 counterexample: the claim says a terminal status never changes again
because terminal writes are conditional on the status still being
`processing`. On the code, a first run completes job `job-c1`, and a second
racing run that raises then rewrites the very same record to `failed`: the
stored status changes after reaching a terminal state, because neither
`update_item` call in `src/processor/processor.py` carries a
`ConditionExpression`. -/
theorem status_overwritten_counterexample :
    storedField raceStoreCompleted "job-c1" "status" = some (AttrVal.s "completed")
    ∧ storedField raceStoreOverwritten "job-c1" "status" = some (AttrVal.s "failed") :=
  ⟨rfl, rfl⟩

/-- C1 (amended): every terminal write by the pipeline processor is an
unconditional update: a processor run always sets the stored status of its
job to `completed` (success) or `failed` (exception) regardless of the
previously stored status, so a second racing run overwrites the first
terminal status instead of observing a condition failure and discarding. -/
theorem terminal_write_unconditional (ev : ProcEvent) (o : ProcOutcome) (now : String)
    (s : Store) :
    storedField (processor_lambda_handler ev ⟨o, now⟩ s).1 ev.job_id "status"
      = some (AttrVal.s (terminalStatusOf o)) := by
  cases o with
  | success =>
      have h1 : (processor_lambda_handler ev ⟨ProcOutcome.success, now⟩ s).1
          = put_item s ev.job_id
              (assocSet (assocSet (assocSet
                  ((get_item s ev.job_id).getD [("job_id", AttrVal.s ev.job_id)])
                  "status" (AttrVal.s "completed"))
                  "result" (AttrVal.m [("answer", "Processed: " ++ ev.question)]))
                  "updated_at" (AttrVal.s now)) := rfl
      rw [h1, storedField_put_item_self,
          getAttr_assocSet_ne _ _ _ _ (by decide),
          getAttr_assocSet_ne _ _ _ _ (by decide),
          getAttr_assocSet_self]
      rfl
  | failure e =>
      have h1 : (processor_lambda_handler ev ⟨ProcOutcome.failure e, now⟩ s).1
          = put_item s ev.job_id
              (assocSet (assocSet
                  ((get_item s ev.job_id).getD [("job_id", AttrVal.s ev.job_id)])
                  "status" (AttrVal.s "failed"))
                  "error" (AttrVal.s e)) := rfl
      rw [h1, storedField_put_item_self,
          getAttr_assocSet_ne _ _ _ _ (by decide),
          getAttr_assocSet_self]
      rfl

/-! ## C2 -/

/-- C2 counterexample: after the racing runs of the C1 scenario the stored
record has status `failed` together with BOTH a `result` and an `error`
attribute, violating the exactly-one-of invariant: the failed-update does
not remove `result`, so the write applied to a completed record does not
preserve the invariant. -/
theorem invariant_violated_counterexample :
    storedField raceStoreOverwritten "job-c1" "status" = some (AttrVal.s "failed")
    ∧ (storedField raceStoreOverwritten "job-c1" "result").isSome = true
    ∧ (storedField raceStoreOverwritten "job-c1" "error").isSome = true
    ∧ (get_item raceStoreOverwritten "job-c1").map invariantOk = some false :=
  ⟨rfl, rfl, rfl, rfl⟩

/-- C2 (amended): creation writes a record satisfying the invariant (status
`processing`, neither `result` nor `error`; after a failed dispatch, status
`failed` with `error` only), and a terminal write by the processor applied
to a record that is still in the `processing` state with neither field
present yields a record satisfying the invariant. Records that receive two
terminal writes are not covered: the writes do not remove the other field
(see the counterexample). -/
theorem job_writes_preserve_invariant :
    (∀ (b : QueryBody) (env : StartEnv) (s : Store) (q : String),
        b.question = some q → q ≠ "" →
        (get_item (start_job b env s).1 env.job_id).map invariantOk = some true)
    ∧ (∀ (ev : ProcEvent) (o : ProcOutcome) (now : String) (s : Store) (it : Item),
        get_item s ev.job_id = some it →
        getAttr it "status" = some (AttrVal.s "processing") →
        getAttr it "result" = none →
        getAttr it "error" = none →
        (get_item (processor_lambda_handler ev ⟨o, now⟩ s).1 ev.job_id).map invariantOk
          = some true) := by
  constructor
  · intro b env s q hq hne
    obtain ⟨jid, now, ttl, inv⟩ := env
    simp only [start_job, hq, Option.getD_some]
    rw [if_neg hne]
    cases inv with
    | ok =>
        rw [get_item_put_item_self]
        rfl
    | error e =>
        simp only [update_item]
        rw [get_item_put_item_self s jid, Option.getD_some, get_item_put_item_self]
        rfl
  · intro ev o now s it hget hst hres herr
    cases o with
    | success =>
        have h1 : (processor_lambda_handler ev ⟨ProcOutcome.success, now⟩ s).1
            = put_item s ev.job_id
                (assocSet (assocSet (assocSet
                    ((get_item s ev.job_id).getD [("job_id", AttrVal.s ev.job_id)])
                    "status" (AttrVal.s "completed"))
                    "result" (AttrVal.m [("answer", "Processed: " ++ ev.question)]))
                    "updated_at" (AttrVal.s now)) := rfl
        rw [h1, hget, Option.getD_some, get_item_put_item_self, Option.map_some']
        apply congrArg some
        apply invariantOk_completed
        · rw [getAttr_assocSet_ne _ _ _ _ (by decide),
              getAttr_assocSet_ne _ _ _ _ (by decide), getAttr_assocSet_self]
        · rw [getAttr_assocSet_ne _ _ _ _ (by decide), getAttr_assocSet_self]
          rfl
        · rw [getAttr_assocSet_ne _ _ _ _ (by decide),
              getAttr_assocSet_ne _ _ _ _ (by decide),
              getAttr_assocSet_ne _ _ _ _ (by decide)]
          exact herr
    | failure e =>
        have h1 : (processor_lambda_handler ev ⟨ProcOutcome.failure e, now⟩ s).1
            = put_item s ev.job_id
                (assocSet (assocSet
                    ((get_item s ev.job_id).getD [("job_id", AttrVal.s ev.job_id)])
                    "status" (AttrVal.s "failed"))
                    "error" (AttrVal.s e)) := rfl
        rw [h1, hget, Option.getD_some, get_item_put_item_self, Option.map_some']
        apply congrArg some
        apply invariantOk_failed
        · rw [getAttr_assocSet_ne _ _ _ _ (by decide), getAttr_assocSet_self]
        · rw [getAttr_assocSet_self]
          rfl
        · rw [getAttr_assocSet_ne _ _ _ _ (by decide),
              getAttr_assocSet_ne _ _ _ _ (by decide)]
          exact hres

/-- C2 witness: the amended theorem applied to a concrete admission and a
concrete successful processor run on a freshly admitted record. -/
theorem job_writes_preserve_invariant_witness :
    (get_item (start_job c5Body ⟨"job-w2", "t0", 5, InvokeOutcome.ok⟩ []).1 "job-w2").map
        invariantOk = some true
    ∧ (get_item (processor_lambda_handler ⟨"job-c1", "What are your storage rates?"⟩
        ⟨ProcOutcome.success, "t1"⟩ raceStore0).1 "job-c1").map invariantOk = some true :=
  ⟨job_writes_preserve_invariant.1 c5Body ⟨"job-w2", "t0", 5, InvokeOutcome.ok⟩ []
      "What are your storage rates?" rfl (by decide),
   job_writes_preserve_invariant.2 ⟨"job-c1", "What are your storage rates?"⟩
      ProcOutcome.success "t1" raceStore0 raceItem0 rfl rfl rfl rfl⟩

theorem check_status_found (jid : String) (s : Store) (it : Item)
    (h : get_item s jid = some it) :
    check_status jid s = (s, statusResponse jid it) := by
  unfold check_status
  rw [h]

theorem statusResponse_eq (jid : String) (it : Item) (st : AttrVal)
    (h : getAttr it "status" = some st) :
    statusResponse jid it = some (cors_response 200 (statusBody jid it st)) := by
  unfold statusResponse
  rw [h]

/-! ## C3 -/

/-- C3: when the asynchronous processor invoke raises, `start_job`
synchronously updates the freshly created record to status `failed` with
the exception text as `error` before returning, so a dispatch-time error
never leaves the job at `processing`. -/
theorem dispatch_failure_marks_job_failed (b : QueryBody) (jid now : String) (ttl : Nat)
    (e : String) (s : Store) (q : String) (hq : b.question = some q) (hne : q ≠ "") :
    storedField (start_job b ⟨jid, now, ttl, InvokeOutcome.error e⟩ s).1 jid "status"
      = some (AttrVal.s "failed")
    ∧ storedField (start_job b ⟨jid, now, ttl, InvokeOutcome.error e⟩ s).1 jid "error"
      = some (AttrVal.s e) := by
  simp only [start_job, hq, Option.getD_some]
  rw [if_neg hne]
  simp only [update_item]
  rw [get_item_put_item_self s jid, Option.getD_some]
  constructor
  · rw [storedField_put_item_self]
    rfl
  · rw [storedField_put_item_self]
    rfl

/-- C3 witness: the theorem at a concrete submission whose invoke is
rejected. -/
theorem dispatch_failure_marks_job_failed_witness :
    storedField (start_job c5Body c5FailEnv []).1 "job-c5" "status"
      = some (AttrVal.s "failed")
    ∧ storedField (start_job c5Body c5FailEnv []).1 "job-c5" "error"
      = some (AttrVal.s "invoke rejected") :=
  dispatch_failure_marks_job_failed c5Body "job-c5" "2025-01-01T00:00:00" 1735776000
    "invoke rejected" [] "What are your storage rates?" rfl (by decide)

/-! ## C4 -/

/-- C4: `check_status` never mutates the store, and for every stored job it
finds it returns a 200 view that always carries `job_id`, `status`,
`created_at` and `question`, carries `result` exactly when the stored
status is `completed`, and carries `error` exactly when it is `failed`. -/
theorem check_status_view (s : Store) (jid : String) :
    (check_status jid s).1 = s
    ∧ ∀ (it : Item) (st : AttrVal), get_item s jid = some it →
        getAttr it "status" = some st →
        respCode (check_status jid s).2 = some 200
        ∧ respField (check_status jid s).2 "job_id" = some (AttrVal.s jid)
        ∧ respField (check_status jid s).2 "status" = some st
        ∧ (respField (check_status jid s).2 "created_at").isSome = true
        ∧ (respField (check_status jid s).2 "question").isSome = true
        ∧ ((respField (check_status jid s).2 "result").isSome = true
            ↔ st = AttrVal.s "completed")
        ∧ ((respField (check_status jid s).2 "error").isSome = true
            ↔ st = AttrVal.s "failed") := by
  constructor
  · unfold check_status
    split
    · rfl
    · rfl
  · intro it st hit hst
    rw [check_status_found jid s it hit, statusResponse_eq jid it st hst]
    by_cases h1 : st = AttrVal.s "completed"
    · subst h1
      exact ⟨rfl, rfl, rfl, rfl, rfl,
        ⟨fun _ => rfl, fun _ => rfl⟩,
        ⟨fun hx => Bool.noConfusion hx, fun hx => absurd hx (by decide)⟩⟩
    · by_cases h2 : st = AttrVal.s "failed"
      · subst h2
        exact ⟨rfl, rfl, rfl, rfl, rfl,
          ⟨fun hx => Bool.noConfusion hx, fun hx => absurd hx (by decide)⟩,
          ⟨fun _ => rfl, fun _ => rfl⟩⟩
      · have hb : statusBody jid it st = statusBaseBody jid it st := by
          unfold statusBody
          rw [if_neg h1, if_neg h2]
        rw [hb]
        exact ⟨rfl, rfl, rfl, rfl, rfl,
          ⟨fun hx => Bool.noConfusion hx, fun hx => absurd hx h1⟩,
          ⟨fun hx => Bool.noConfusion hx, fun hx => absurd hx h2⟩⟩

/-- C4 witness: the theorem at a store holding one freshly admitted
(`processing`) job. -/
theorem check_status_view_witness :
    (check_status "job-c1" raceStore0).1 = raceStore0
    ∧ (respCode (check_status "job-c1" raceStore0).2 = some 200
      ∧ respField (check_status "job-c1" raceStore0).2 "job_id" = some (AttrVal.s "job-c1")
      ∧ respField (check_status "job-c1" raceStore0).2 "status"
          = some (AttrVal.s "processing")
      ∧ (respField (check_status "job-c1" raceStore0).2 "created_at").isSome = true
      ∧ (respField (check_status "job-c1" raceStore0).2 "question").isSome = true
      ∧ ((respField (check_status "job-c1" raceStore0).2 "result").isSome = true
          ↔ AttrVal.s "processing" = AttrVal.s "completed")
      ∧ ((respField (check_status "job-c1" raceStore0).2 "error").isSome = true
          ↔ AttrVal.s "processing" = AttrVal.s "failed")) :=
  ⟨(check_status_view raceStore0 "job-c1").1,
   (check_status_view raceStore0 "job-c1").2 raceItem0 (AttrVal.s "processing") rfl rfl⟩

/-! ## C5 -/

/-- C5 counterexample: a valid submission whose asynchronous invoke is
rejected still returns 202, but the status read performed immediately after
`start_job` returns finds the job at `failed`, not `processing`, refuting
the claim that an immediate read always finds `processing`. -/
theorem submit_then_poll_counterexample :
    (start_job c5Body c5FailEnv []).2.statusCode = 202
    ∧ respField (check_status "job-c5" (start_job c5Body c5FailEnv []).1).2 "status"
        = some (AttrVal.s "failed") :=
  ⟨rfl, rfl⟩

/-- C5 (amended): for every valid submission the response is 202 and does
not depend on the invoke outcome (admission never waits on the pipeline),
and when the asynchronous invoke is accepted, an immediate status read
finds the job at `processing`; when the invoke is rejected the immediate
read finds `failed` instead (see the counterexample). -/
theorem submit_accepted_and_immediately_processing (b : QueryBody) (jid now : String)
    (ttl : Nat) (inv : InvokeOutcome) (s : Store) (q : String)
    (hq : b.question = some q) (hne : q ≠ "") :
    (start_job b ⟨jid, now, ttl, inv⟩ s).2
        = (start_job b ⟨jid, now, ttl, InvokeOutcome.ok⟩ s).2
    ∧ (start_job b ⟨jid, now, ttl, inv⟩ s).2.statusCode = 202
    ∧ (inv = InvokeOutcome.ok →
        respField (check_status jid (start_job b ⟨jid, now, ttl, inv⟩ s).1).2 "status"
          = some (AttrVal.s "processing")) := by
  simp only [start_job, hq, Option.getD_some]
  rw [if_neg hne, if_neg hne]
  refine ⟨rfl, rfl, ?_⟩
  rintro rfl
  rw [check_status_found _ _ _ (get_item_put_item_self _ _ _)]
  rfl

/-- C5 witness: the amended theorem at a concrete submission with an
accepted invoke. -/
theorem submit_accepted_and_immediately_processing_witness :
    (start_job c5Body ⟨"job-w5", "t", 9, InvokeOutcome.ok⟩ []).2
        = (start_job c5Body ⟨"job-w5", "t", 9, InvokeOutcome.ok⟩ []).2
    ∧ (start_job c5Body ⟨"job-w5", "t", 9, InvokeOutcome.ok⟩ []).2.statusCode = 202
    ∧ (InvokeOutcome.ok = InvokeOutcome.ok →
        respField (check_status "job-w5"
          (start_job c5Body ⟨"job-w5", "t", 9, InvokeOutcome.ok⟩ []).1).2 "status"
          = some (AttrVal.s "processing")) :=
  submit_accepted_and_immediately_processing c5Body "job-w5" "t" 9 InvokeOutcome.ok []
    "What are your storage rates?" rfl (by decide)

/-! ## C6 -/

/-- C6: `POST /query` with a missing or empty question returns 400 with
body `{error: Question is required}` and leaves the store untouched (no job
record created); with a non-empty question it returns 202 with `job_id`,
status `processing` and `check_status_url` in the body. -/
theorem start_job_admission (b : QueryBody) (env : StartEnv) (s : Store) :
    (b.question.getD "" = "" →
      start_job b env s
        = (s, cors_response 400 [("error", AttrVal.s "Question is required")]))
    ∧ (b.question.getD "" ≠ "" →
      (start_job b env s).2.statusCode = 202
      ∧ bodyField (start_job b env s).2 "job_id" = some (AttrVal.s env.job_id)
      ∧ bodyField (start_job b env s).2 "status" = some (AttrVal.s "processing")
      ∧ bodyField (start_job b env s).2 "check_status_url"
          = some (AttrVal.s ("/status/" ++ env.job_id))) := by
  constructor
  · intro h
    simp only [start_job]
    rw [if_pos h]
  · intro h
    simp only [start_job]
    rw [if_neg h]
    exact ⟨rfl, rfl, rfl, rfl⟩

/-- C6 witness: the theorem at an empty-question body (400, store
untouched) and at a valid body (202 with the admission fields). -/
theorem start_job_admission_witness :
    (start_job ⟨none, none⟩ ⟨"job-w6", "t", 7, InvokeOutcome.ok⟩ []
      = ([], cors_response 400 [("error", AttrVal.s "Question is required")]))
    ∧ ((start_job c5Body ⟨"job-w6", "t", 7, InvokeOutcome.ok⟩ []).2.statusCode = 202
      ∧ bodyField (start_job c5Body ⟨"job-w6", "t", 7, InvokeOutcome.ok⟩ []).2 "job_id"
          = some (AttrVal.s "job-w6")
      ∧ bodyField (start_job c5Body ⟨"job-w6", "t", 7, InvokeOutcome.ok⟩ []).2 "status"
          = some (AttrVal.s "processing")
      ∧ bodyField (start_job c5Body ⟨"job-w6", "t", 7, InvokeOutcome.ok⟩ []).2
          "check_status_url" = some (AttrVal.s ("/status/" ++ "job-w6"))) :=
  ⟨(start_job_admission ⟨none, none⟩ ⟨"job-w6", "t", 7, InvokeOutcome.ok⟩ []).1 rfl,
   (start_job_admission c5Body ⟨"job-w6", "t", 7, InvokeOutcome.ok⟩ []).2 (by decide)⟩

/-! ## C9 -/

/-- C9: when the asynchronous invoke raises, `start_job` still returns 202
with body status `processing` and a `check_status_url`, even though the
record it just wrote has status `failed`: the admission response body does
not always match the stored status at return time. -/
theorem dispatch_failure_still_returns_processing (b : QueryBody) (jid now : String)
    (ttl : Nat) (e : String) (s : Store) (q : String)
    (hq : b.question = some q) (hne : q ≠ "") :
    (start_job b ⟨jid, now, ttl, InvokeOutcome.error e⟩ s).2.statusCode = 202
    ∧ bodyField (start_job b ⟨jid, now, ttl, InvokeOutcome.error e⟩ s).2 "status"
        = some (AttrVal.s "processing")
    ∧ bodyField (start_job b ⟨jid, now, ttl, InvokeOutcome.error e⟩ s).2
        "check_status_url" = some (AttrVal.s ("/status/" ++ jid))
    ∧ storedField (start_job b ⟨jid, now, ttl, InvokeOutcome.error e⟩ s).1 jid "status"
        = some (AttrVal.s "failed") := by
  simp only [start_job, hq, Option.getD_some]
  rw [if_neg hne]
  refine ⟨rfl, rfl, rfl, ?_⟩
  simp only [update_item]
  rw [get_item_put_item_self s jid, Option.getD_some, storedField_put_item_self]
  rfl

/-- C9 witness: the theorem at a concrete submission whose invoke raises. -/
theorem dispatch_failure_still_returns_processing_witness :
    (start_job c5Body ⟨"job-w9", "t9", 3, InvokeOutcome.error "boom"⟩ []).2.statusCode = 202
    ∧ bodyField (start_job c5Body ⟨"job-w9", "t9", 3, InvokeOutcome.error "boom"⟩ []).2
        "status" = some (AttrVal.s "processing")
    ∧ bodyField (start_job c5Body ⟨"job-w9", "t9", 3, InvokeOutcome.error "boom"⟩ []).2
        "check_status_url" = some (AttrVal.s ("/status/" ++ "job-w9"))
    ∧ storedField (start_job c5Body ⟨"job-w9", "t9", 3, InvokeOutcome.error "boom"⟩ []).1
        "job-w9" "status" = some (AttrVal.s "failed") :=
  dispatch_failure_still_returns_processing c5Body "job-w9" "t9" 3 "boom" []
    "What are your storage rates?" rfl (by decide)

/-! ## C7 -/

/-- C7 counterexample: the claim says classification always returns a
non-empty fragment list. When the reasoning output parses as valid JSON
that lacks a `questions` field (e.g. the raw text `{}`), or carries an
empty `questions` list, `classify_question` returns
`classification_result.get('questions', [])`, which is empty: the fallback
only fires on a parse error or a raised exception, not on a successful
parse with zero fragments. -/
theorem classify_empty_fragments_counterexample :
    (classify_question "What are your storage rates?"
        (CrewOutcome.returns (ParseOutcome.ok none))).questions = []
    ∧ (classify_question "What are your storage rates?"
        (CrewOutcome.returns (ParseOutcome.ok (some [])))).questions = [] :=
  ⟨rfl, rfl⟩

/-- C7 (amended): when JSON extraction fails or the classification call
raises, `classify_question` returns the deterministic fallback of exactly
one fragment, the whole input classified `factual_direct`, instead of
propagating a hard failure; when extraction succeeds it returns the parsed
`questions` field as-is (defaulting to the empty list when the field is
absent), so non-emptiness is not guaranteed on the successful-parse path. -/
theorem classify_fallback (q e : String) (qs : Option (List Fragment)) :
    (classify_question q (CrewOutcome.raises e)).questions = [⟨q, "factual_direct"⟩]
    ∧ (classify_question q (CrewOutcome.returns (ParseOutcome.jsonError e))).questions
        = [⟨q, "factual_direct"⟩]
    ∧ (classify_question q (CrewOutcome.returns (ParseOutcome.ok qs))).questions
        = qs.getD [] :=
  ⟨rfl, rfl, rfl⟩

/-! ## C8 -/

/-- C8 counterexample: the claim says every pipeline run first classifies
and then selects its stage list by a lookup on the dominant classified
category. On the code, the planner-side `lambda_handler` selects the stage
from the event's explicit `step` field alone: with `step='reporting'` the
run executes only the reporting stage (no classification stage runs first),
for any question, and with no `step` field it defaults to the one-shot
`complete_analysis` stage — never a classification-keyed stage list. -/
theorem step_routing_counterexample :
    (planner_main_handler ⟨"What are your storage rates?", AttrVal.m [], some "reporting"⟩
        (CrewRun.ok "formatted report")).step = "reporting"
    ∧ (planner_main_handler ⟨"How many moves were scheduled in March 2025?", AttrVal.m [],
        some "reporting"⟩ (CrewRun.ok "formatted report")).step = "reporting"
    ∧ (planner_main_handler ⟨"What are your storage rates?", AttrVal.m [], none⟩
        (CrewRun.ok "analysis")).step = "complete_analysis" :=
  ⟨rfl, rfl, rfl⟩

/-- C8 (amended): stage selection in the repository's planner handler is a
table lookup keyed on the event's explicit `step` field, defaulting to
`complete_analysis` for a missing or unrecognised step; it is independent
of the question and of any classification result. -/
theorem planner_step_selection (ev : PlannerEvent) (run : CrewRun) :
    (planner_main_handler ev run).step = selectedStep ev.step := by
  obtain ⟨q, ctx, st⟩ := ev
  cases st with
  | none => cases run <;> rfl
  | some name =>
      by_cases h1 : name = "task_planning"
      · subst h1
        cases run <;> rfl
      · by_cases h2 : name = "metadata_retrieval"
        · subst h2
          cases run <;> rfl
        · by_cases h3 : name = "query_execution"
          · subst h3
            cases run <;> rfl
          · by_cases h4 : name = "reporting"
            · subst h4
              cases run <;> rfl
            · by_cases h5 : name = "complete_analysis"
              · subst h5
                cases run <;> rfl
              · simp only [planner_main_handler, selectedStep, stepTable, assocFind]
                rw [if_neg (fun hx => h1 (Option.some.inj hx)),
                    if_neg (fun hx => h2 (Option.some.inj hx)),
                    if_neg (fun hx => h3 (Option.some.inj hx)),
                    if_neg (fun hx => h4 (Option.some.inj hx)),
                    if_neg (fun hx => h5 (Option.some.inj hx)),
                    if_neg h1, if_neg h2, if_neg h3, if_neg h4, if_neg h5]
                cases run <;> rfl

/-! ## C10 -/

/-- C10 counterexample: the claim says the two processor variants write the
same values and return or raise identically for every event. On a concrete
successful run over an empty store, the src variant's aliased update is
accepted — it returns `{'statusCode': 200}` and the job's stored status is
`completed` — while the build variant's `SET ... result = :result ...`
names the reserved word `result` directly, so the store rejects the
expression with a `ValidationException`; the except-branch write then
fails the same way on the reserved word `error`, and the run raises having
written nothing. The src file's own comments (using expression attribute
names for `result` and `error`) record exactly this fix. -/
theorem processor_variants_diverge_counterexample :
    (processor_lambda_handler ⟨"job-c10", "What are your storage rates?"⟩
        ⟨ProcOutcome.success, "2025-01-01T00:05:00"⟩ []).2 = Except.ok 200
    ∧ storedField (processor_lambda_handler ⟨"job-c10", "What are your storage rates?"⟩
        ⟨ProcOutcome.success, "2025-01-01T00:05:00"⟩ []).1 "job-c10" "status"
        = some (AttrVal.s "completed")
    ∧ (processor_build_lambda_handler ⟨"job-c10", "What are your storage rates?"⟩
        ⟨ProcOutcome.success, "2025-01-01T00:05:00"⟩ []).2
        = Except.error "ValidationException"
    ∧ (processor_build_lambda_handler ⟨"job-c10", "What are your storage rates?"⟩
        ⟨ProcOutcome.success, "2025-01-01T00:05:00"⟩ []).1 = [] :=
  ⟨rfl, rfl, rfl, rfl⟩

/-- C10 (amended): the two variants intend the same writes — for every
event and outcome their update calls target the same job key and resolve
to identical assignments after substituting `ExpressionAttributeNames`
aliases and value placeholders — but they are NOT observationally
equivalent: every src-variant call validates (its only unaliased token,
`updated_at`, is not reserved), whereas both build-variant calls name the
reserved words `result` respectively `error` directly and fail validation,
so every build-variant run leaves the store unchanged and raises
`ValidationException`, while the src variant applies its terminal write and
returns 200 on success or re-raises the environmental exception. -/
theorem processor_variants_validation (ev : ProcEvent) (o : ProcOutcome) (now : String)
    (s : Store) :
    (processorUpdateCall ev ⟨o, now⟩).key = (processorBuildUpdateCall ev ⟨o, now⟩).key
    ∧ (processorUpdateCall ev ⟨o, now⟩).resolvedSets
        = (processorBuildUpdateCall ev ⟨o, now⟩).resolvedSets
    ∧ (processorUpdateCall ev ⟨o, now⟩).valid = true
    ∧ (processorBuildUpdateCall ev ⟨o, now⟩).valid = false
    ∧ processor_build_lambda_handler ev ⟨o, now⟩ s = (s, Except.error "ValidationException")
    ∧ (processor_lambda_handler ev ⟨o, now⟩ s).2
        = (match o with
            | ProcOutcome.success => Except.ok 200
            | ProcOutcome.failure e => Except.error e) := by
  cases o with
  | success => exact ⟨rfl, rfl, rfl, rfl, rfl, rfl⟩
  | failure e => exact ⟨rfl, rfl, rfl, rfl, rfl, rfl⟩

end CrewPipeline
